import Mathlib

/-!
Formal model of the ML Workshop backend service
(`src/ML_model/backend/app.py`), a small Flask application that accepts a
CSV upload at `POST /api/predict`, runs it through a (currently stub)
model, and returns per-row predictions, plus health and model-metadata
endpoints.

Modelling conventions:
* Floats become rationals (the stub only uses exact decimal constants).
* `np.random.choice` and `np.random.uniform` consume explicit streams of
  draws (`RandStream`); `np.random.uniform(low, high, n)` is modelled as
  `low + u * (high - low)` for a draw `u` in `[0, 1)`.
* The Flask request, the mutable module-level state (`model_metadata`,
  `ml_model`, the upload folder) and the filesystem are explicit values;
  handlers are state-passing functions.
* Python string helpers (`str.lower`, `str.endswith`) and
  `pandas.read_csv` are modelled by structurally recursive functions on
  character lists so that the kernel can evaluate them on concrete data.
* Fallible environment actions (`file.save`, pickling, json writes) are
  modelled by boolean outcome flags in the environment.
-/

namespace MLApp

/-- An in-memory table parsed from a CSV upload (a pandas DataFrame):
an ordered header row and the data rows. -/
structure CSVTable where
  header : List String
  rows : List (List String)
deriving Repr, DecidableEq

/-- Row count of the table (`df.shape[0]`, `len(df)`). -/
def rowCount (t : CSVTable) : Nat := t.rows.length

/-- Column count of the table (`len(df.columns)`). -/
def colCount (t : CSVTable) : Nat := t.header.length

/-- Model of `pandas.DataFrame.empty`: true when either axis has length
zero. -/
def dfEmpty (t : CSVTable) : Bool := t.rows.isEmpty || t.header.isEmpty

/-- Splits a character list at newline characters (accumulator holds the
current line reversed). -/
def splitLinesAux : List Char → List Char → List (List Char)
  | [], acc => [acc.reverse]
  | c :: cs, acc =>
    if c = '\n' then acc.reverse :: splitLinesAux cs []
    else splitLinesAux cs (c :: acc)

/-- Splits a character list into lines at newline characters. -/
def splitLines (s : List Char) : List (List Char) := splitLinesAux s []

/-- Splits a character list at commas (accumulator holds the current
field reversed). -/
def splitFieldsAux : List Char → List Char → List (List Char)
  | [], acc => [acc.reverse]
  | c :: cs, acc =>
    if c = ',' then acc.reverse :: splitFieldsAux cs []
    else splitFieldsAux cs (c :: acc)

/-- Splits a character list into comma-separated fields. -/
def splitFields (s : List Char) : List (List Char) := splitFieldsAux s []

/-- A line consisting only of whitespace, which pandas skips
(`skip_blank_lines=True` is the default). -/
def isBlankLine (l : List Char) : Bool :=
  l.all (fun c => c = ' ' || c = '\t' || c = '\r')

/-- Model of `pandas.read_csv` on the uploaded bytes: content with no
non-blank line raises `EmptyDataError` with message
"No columns to parse from file"; otherwise the first non-blank line is
the header and every later non-blank line is a data row. -/
def read_csv (content : String) : Except String CSVTable :=
  match (splitLines content.toList).filter (fun l => !(isBlankLine l)) with
  | [] => Except.error "No columns to parse from file"
  | h :: rest =>
    Except.ok
      { header := (splitFields h).map (fun cs => String.mk cs),
        rows := rest.map (fun l => (splitFields l).map (fun cs => String.mk cs)) }

/-- ASCII lower-casing of one character (enough for `str.lower` on the
filenames this service compares). -/
def lowerChar (c : Char) : Char :=
  if 65 ≤ c.toNat ∧ c.toNat ≤ 90 then Char.ofNat (c.toNat + 32) else c

/-- Model of Python `str.lower`. -/
def pyLower (s : String) : String := String.mk (s.toList.map lowerChar)

/-- Model of Python `str.endswith`: the last `len(pat)` characters of
`s` equal `pat`. -/
def pyEndsWith (s pat : String) : Bool :=
  (s.toList.drop (s.toList.length - pat.toList.length)) == pat.toList

/-- Possible in-memory model objects. `randomForestMock` is the object
`create_mock_model` builds; `fromArtifact c` names a model deserialized
from a persisted artifact with content `c` (this code never produces
one, which is what claim C8 is about). -/
inductive ModelRepr where
  | randomForestMock : ModelRepr
  | fromArtifact (content : String) : ModelRepr
deriving Repr, DecidableEq

/-- The `MLModel` class state: `__init__` sets `is_trained = False` and
`model = None`. -/
structure MLModel where
  is_trained : Bool
  model : Option ModelRepr
deriving Repr, DecidableEq

/-- `MLModel.__init__`. -/
def MLModel.init : MLModel := { is_trained := false, model := none }

/-- `MLModel.create_mock_model`: fits a RandomForest on synthetic data
with fixed seeds; modelled as the fixed mock model object. -/
def MLModel.create_mock_model (_m : MLModel) : ModelRepr :=
  ModelRepr.randomForestMock

/-- `MLModel.load_model(model_path)`: the path is ignored; the method
installs the mock model and sets `is_trained`, returning True. The
`loadOk` flag models the surrounding try/except: when the body raises,
the fields are left unchanged and the method returns False. -/
def MLModel.load_model (m : MLModel) (_model_path : String) (loadOk : Bool) :
    MLModel × Bool :=
  if loadOk then
    ({ m with model := some (m.create_mock_model), is_trained := true }, true)
  else (m, false)

/-- The streams of random draws consumed by numpy: `choiceIdx i` is the
index drawn for the i-th call slot of `np.random.choice`, and `unif i`
is the i-th uniform draw in `[0, 1)`. -/
structure RandStream where
  choiceIdx : Nat → Nat
  unif : Nat → ℚ

/-- The fixed label set of the stub predictor. -/
def class_labels : List String := ["Class A", "Class B", "Class C"]

/-- `np.random.choice(opts, n)`: n independent draws from `opts`. -/
def npChoice (opts : List String) (rs : RandStream) (n : Nat) : List String :=
  (List.range n).map (fun i => opts.getD (rs.choiceIdx i % opts.length) "")

/-- `np.random.uniform(low, high, n)`: n draws `low + u * (high - low)`
with `u` drawn from `[0, 1)`. -/
def npUniform (low high : ℚ) (rs : RandStream) (n : Nat) : List ℚ :=
  (List.range n).map (fun i => low + rs.unif i * (high - low))

/-- `MLModel.predict(data)`: returns `none` for the `(None, None)`
outcome (predictor not ready), otherwise the stub labels and
confidences, one per input row. -/
def MLModel.predict (m : MLModel) (rs : RandStream) (data : CSVTable) :
    Option (List String × List ℚ) :=
  if !m.is_trained || m.model.isNone then none
  else
    some (npChoice class_labels rs (rowCount data),
          npUniform (7/10) (19/20) rs (rowCount data))

/-- The `model_metadata` record. -/
structure Metadata where
  model_type : String
  accuracy : Option ℚ
  last_trained : Option String
  features : List String
  status : String
deriving Repr, DecidableEq

/-- The module-level default `model_metadata`. -/
def defaultMetadata : Metadata :=
  { model_type := "Not loaded", accuracy := none, last_trained := none,
    features := [], status := "No model loaded" }

/-- The durable filesystem state the app reads and writes:
`trained_model/model.pkl` content (when it exists) and its mtime, and
the persisted `trained_model/model_metadata.json` record. -/
structure FS where
  model_pkl : Option String
  model_pkl_mtime : String
  metadata_json : Option Metadata
deriving Repr, DecidableEq

/-- The mutable process state: the `model_metadata` global, the
`ml_model` global, and the contents of the uploads folder. -/
structure AppState where
  model_metadata : Metadata
  ml_model : MLModel
  uploads : List (String × String)
deriving Repr, DecidableEq

/-- Process state right after module import. -/
def AppState.init : AppState :=
  { model_metadata := defaultMetadata, ml_model := MLModel.init, uploads := [] }

/-- `load_model_metadata()`: when the persisted record exists,
`dict.update` replaces every field (the persisted record always carries
all five keys); on a missing file or read error the in-memory metadata
is kept unchanged. -/
def load_model_metadata (md : Metadata) (fs : FS) : Metadata :=
  match fs.metadata_json with
  | some saved => saved
  | none => md

/-- `save_model_metadata()`: best-effort write of the record;
`saveMetaOk = false` models a write failure, which is logged and
ignored. -/
def save_model_metadata (md : Metadata) (fs : FS) (saveMetaOk : Bool) : FS :=
  if saveMetaOk then { fs with metadata_json := some md } else fs

/-- `initialize_app()` from the source (renamed here): when
`trained_model/model.pkl` exists, `load_model` runs on its path and the
metadata status and `last_trained` (the artifact mtime) are set from the
outcome; otherwise `load_model("mock")` installs the mock and the mock
descriptor is stored and persisted. Either way `load_model_metadata`
runs last. `now` is the current wall-clock timestamp string. -/
def init_app (st : AppState) (fs : FS) (now : String)
    (loadOk saveMetaOk : Bool) : AppState × FS :=
  match fs.model_pkl with
  | some _ =>
    match st.ml_model.load_model "trained_model/model.pkl" loadOk with
    | (m, ok) =>
      let md :=
        if ok then
          { st.model_metadata with
            status := "Model loaded successfully",
            last_trained := some fs.model_pkl_mtime }
        else { st.model_metadata with status := "Error loading model" }
      ({ st with ml_model := m, model_metadata := load_model_metadata md fs }, fs)
  | none =>
    match st.ml_model.load_model "mock" loadOk with
    | (m, ok) =>
      if ok then
        let md : Metadata :=
          { model_type := "Random Forest (Mock)", accuracy := some (17/20),
            last_trained := some now,
            features := ["Feature1", "Feature2", "Feature3", "Feature4"],
            status := "Mock model loaded for testing" }
        let fs1 := save_model_metadata md fs saveMetaOk
        ({ st with ml_model := m,
                   model_metadata := load_model_metadata md fs1 }, fs1)
      else
        ({ st with ml_model := m,
                   model_metadata := load_model_metadata st.model_metadata fs }, fs)

/-- A file delivered in the multipart `file` field. -/
structure UploadedFile where
  filename : String
  content : String
deriving Repr, DecidableEq

/-- A request to `POST /api/predict`: `file = none` models a request
whose form has no `file` field at all. -/
structure Request where
  file : Option UploadedFile
deriving Repr, DecidableEq

/-- One entry of the `predictions` array built by
`format_predictions`. -/
structure PredEntry where
  id : Nat
  prediction : String
  confidence : Option ℚ
deriving Repr, DecidableEq

/-- The `summary` object of a successful response. -/
structure Summary where
  total_samples : Nat
  model_used : String
  accuracy : Option ℚ
deriving Repr, DecidableEq

/-- The JSON envelope plus HTTP status code returned by the predict
endpoint. -/
structure PredictResponse where
  status : Nat
  success : Bool
  error : Option String
  predictions : Option (List PredEntry)
  summary : Option Summary
deriving Repr, DecidableEq

/-- An error envelope with the given status code and message. -/
def errResponse (code : Nat) (msg : String) : PredictResponse :=
  { status := code, success := false, error := some msg,
    predictions := none, summary := none }

/-- `format_predictions(df, predictions, confidence)`: zip the labels
and confidences, enumerate, and attach 1-based ids. The confidence is
never None here, matching the source where the ternary always takes the
`float(conf)` arm. -/
def format_predictions (_df : CSVTable) (preds : List String)
    (confs : List ℚ) : List PredEntry :=
  (preds.zip confs).enum.map
    (fun p => { id := p.1 + 1, prediction := p.2.1, confidence := some p.2.2 })

/-- The per-request environment: the wall clock (used for the upload
filename), the outcome of the best-effort `file.save` along with the
exception text shown on failure, and the random draws numpy will
consume. -/
structure Env where
  now : String
  saveOk : Bool
  saveErr : String
  rs : RandStream

/-- The path under which the upload is saved
(`uploads/upload_<timestamp>.csv`). -/
def uploadPath (env : Env) : String := "uploads/upload_" ++ env.now ++ ".csv"

/-- The body of the predict handler after the upload has been saved:
parse, reject empty tables, run the model, format the response.
`st1` is the state already containing the saved upload. -/
def predictBody (env : Env) (st1 : AppState) (file : UploadedFile) :
    PredictResponse :=
  match read_csv file.content with
  | Except.error e => errResponse 400 ("Error reading CSV: " ++ e)
  | Except.ok df =>
    if dfEmpty df then errResponse 400 "CSV file is empty"
    else
      match st1.ml_model.predict env.rs df with
      | none => errResponse 500 "Model prediction failed"
      | some pc =>
        { status := 200, success := true, error := none,
          predictions := some (format_predictions df pc.1 pc.2),
          summary := some
            { total_samples := rowCount df,
              model_used := st1.model_metadata.model_type,
              accuracy := st1.model_metadata.accuracy } }

/-- The `POST /api/predict` handler. The result pairs the HTTP response
with the post-request application state. A `file.save` failure
(`env.saveOk = false`) raises and is caught by the endpoint-level
`except`, which answers 500 with the exception text. -/
def predictRoute (env : Env) (st : AppState) (req : Request) :
    PredictResponse × AppState :=
  match req.file with
  | none => (errResponse 400 "No file uploaded", st)
  | some file =>
    if file.filename = "" then (errResponse 400 "No file selected", st)
    else if !(pyEndsWith (pyLower file.filename) ".csv") then
      (errResponse 400 "File must be CSV format", st)
    else if !env.saveOk then
      (errResponse 500 ("Server error: " ++ env.saveErr), st)
    else
      let st1 :=
        { st with uploads := st.uploads ++ [(uploadPath env, file.content)] }
      (predictBody env st1 file, st1)

/-- The response of `GET /api/health`. -/
structure HealthResponse where
  status : String
  timestamp : String
  message : String
  model_status : String
deriving Repr, DecidableEq

/-- The `GET /api/health` handler: reads the metadata status, writes
nothing. -/
def health_check (now : String) (st : AppState) : HealthResponse × AppState :=
  ({ status := "healthy", timestamp := now,
     message := "ML Workshop Backend is running",
     model_status := st.model_metadata.status }, st)

/-- Runs one health call per timestamp in the list, threading the
state. -/
def healthCalls : List String → AppState → AppState
  | [], st => st
  | t :: ts, st => healthCalls ts (health_check t st).2

/-- Refinement reading of the spec sentence for claim C8, following its
words: the Predictor was instantiated from the persisted artifact,
i.e. the installed model object is the one deserialized from the
artifact bytes. -/
def instantiatedFromArtifact (fs : FS) (st : AppState) : Prop :=
  ∃ c, fs.model_pkl = some c ∧
    st.ml_model.model = some (ModelRepr.fromArtifact c)

/-! Concrete fixtures used by witnesses and counterexamples. -/

/-- A concrete deterministic random stream. -/
def wRS : RandStream := { choiceIdx := fun _ => 0, unif := fun _ => 1/2 }

/-- A concrete request environment where the upload save succeeds. -/
def wEnv : Env := { now := "20240101_120000", saveOk := true, saveErr := "", rs := wRS }

/-- A concrete request environment where the upload save fails. -/
def wEnvFail : Env :=
  { now := "20240101_120000", saveOk := false, saveErr := "disk full", rs := wRS }

/-- The model state after the mock model has been installed. -/
def readyModel : MLModel :=
  { is_trained := true, model := some ModelRepr.randomForestMock }

/-- A concrete app state with the mock model installed. -/
def wState : AppState :=
  { model_metadata := defaultMetadata, ml_model := readyModel, uploads := [] }

/-- A concrete 3-row, 2-column CSV upload. -/
def wFile3 : UploadedFile :=
  { filename := "data.csv", content := "a,b\n1,2\n3,4\n5,6" }

/-- The request carrying the 3-row upload. -/
def wReq3 : Request := { file := some wFile3 }

/-- The table `read_csv` produces for the 3-row upload. -/
def wDf3 : CSVTable :=
  { header := ["a", "b"], rows := [["1", "2"], ["3", "4"], ["5", "6"]] }

/-- A concrete upload with a `.csv` filename but zero-byte content. -/
def wBadFile : UploadedFile := { filename := "data.csv", content := "" }

/-- The request carrying the zero-byte upload. -/
def wReqBad : Request := { file := some wBadFile }

/-- A concrete filesystem state holding a persisted real-model artifact
and no persisted metadata record. -/
def cFS : FS :=
  { model_pkl := some "serialized real model bytes",
    model_pkl_mtime := "2024-01-01T00:00:00", metadata_json := none }

/-! Helper lemmas shared by the claim theorems. -/

/-- An index below the length selects an actual element of the list. -/
theorem getD_mem_of_lt (l : List String) (n : Nat) (d : String)
    (h : n < l.length) : l.getD n d ∈ l := by
  rw [List.getD_eq_getElem?_getD, List.getElem?_eq_getElem h]
  exact List.getElem_mem h

/-- The stub label list has length n. -/
theorem npChoice_length (opts : List String) (rs : RandStream) (n : Nat) :
    (npChoice opts rs n).length = n := by
  simp [npChoice]

/-- The stub confidence list has length n. -/
theorem npUniform_length (low high : ℚ) (rs : RandStream) (n : Nat) :
    (npUniform low high rs n).length = n := by
  simp [npUniform]

/-- `format_predictions` zips, so its length is the min of its input
lengths. -/
theorem format_predictions_length (df : CSVTable) (ps : List String)
    (cs : List ℚ) :
    (format_predictions df ps cs).length = min ps.length cs.length := by
  simp [format_predictions]

/-- Each entry of `format_predictions` carries the 1-based position as
its id. -/
theorem format_predictions_id (df : CSVTable) (ps : List String)
    (cs : List ℚ) (i : Nat) (h : i < (format_predictions df ps cs).length) :
    ((format_predictions df ps cs).get ⟨i, h⟩).id = i + 1 := by
  simp only [format_predictions, List.get_eq_getElem] at h ⊢
  simp [List.getElem_map, List.getElem_enum]

/-! The claim theorems. -/

/-- C3: for every upload whose filename does not end with a CSV
extension (case-insensitively, as the code lowercases first),
`POST /api/predict` answers 400 with `success: false`, regardless of
the file content. -/
theorem non_csv_upload_rejected (env : Env) (st : AppState) (req : Request)
    (f : UploadedFile) (hf : req.file = some f)
    (hext : pyEndsWith (pyLower f.filename) ".csv" = false) :
    (predictRoute env st req).1.status = 400 ∧
    (predictRoute env st req).1.success = false := by
  by_cases hn : f.filename = "" <;>
    simp [predictRoute, hf, hn, hext, errResponse]

/-- Witness for C3 at a concrete text upload. -/
theorem non_csv_upload_rejected_witness :
    (predictRoute wEnv wState
        { file := some { filename := "notes.txt", content := "a,b\n1,2" } }).1.status = 400 ∧
    (predictRoute wEnv wState
        { file := some { filename := "notes.txt", content := "a,b\n1,2" } }).1.success = false :=
  non_csv_upload_rejected wEnv wState
    { file := some { filename := "notes.txt", content := "a,b\n1,2" } }
    { filename := "notes.txt", content := "a,b\n1,2" } rfl (by decide)

/-- C4: an upload that parses into a zero-row table is answered with
the 400 "CSV file is empty" error, never a success response. -/
theorem empty_table_rejected (env : Env) (st : AppState) (req : Request)
    (f : UploadedFile) (df : CSVTable)
    (hf : req.file = some f) (hn : f.filename ≠ "")
    (hext : pyEndsWith (pyLower f.filename) ".csv" = true)
    (hsave : env.saveOk = true)
    (hparse : read_csv f.content = Except.ok df)
    (hrows : rowCount df = 0) :
    (predictRoute env st req).1 = errResponse 400 "CSV file is empty" := by
  have hemp : dfEmpty df = true := by
    unfold rowCount at hrows
    simp [dfEmpty, List.isEmpty_iff, List.length_eq_zero.mp hrows]
  simp [predictRoute, hf, hn, hext, hsave, predictBody, hparse, hemp]

/-- Witness for C4 at a concrete header-only upload. -/
theorem empty_table_rejected_witness :
    (predictRoute wEnv wState
        { file := some { filename := "data.csv", content := "a,b\n" } }).1
      = errResponse 400 "CSV file is empty" :=
  empty_table_rejected wEnv wState
    { file := some { filename := "data.csv", content := "a,b\n" } }
    { filename := "data.csv", content := "a,b\n" }
    { header := ["a", "b"], rows := [] } rfl (by decide) (by decide) rfl rfl rfl

/-- C6: the predict handler never changes `model_metadata`, whatever
the request and whatever branch it takes. -/
theorem predict_preserves_metadata (env : Env) (st : AppState)
    (req : Request) :
    ((predictRoute env st req).2).model_metadata = st.model_metadata := by
  unfold predictRoute
  rcases req.file with _ | f
  · rfl
  · by_cases h1 : f.filename = ""
    · simp [h1]
    · by_cases h2 : pyEndsWith (pyLower f.filename) ".csv" = true
      · by_cases h3 : env.saveOk = true <;> simp [h1, h2, h3]
      · simp [h1, h2]

/-- C9: any sequence of `GET /api/health` calls leaves the whole
application state (metadata and model) exactly as it was. -/
theorem health_check_idempotent (ts : List String) (st : AppState) :
    healthCalls ts st = st := by
  induction ts with
  | nil => rfl
  | cons t ts ih => simpa [healthCalls, health_check] using ih

/-- C10: a `.csv` upload with zero-byte content makes the parser raise,
so the handler answers through the ParseError branch ("Error reading
CSV: ..."), not the EmptyDataset branch ("CSV file is empty"). -/
theorem empty_bytes_gives_parse_error (env : Env) (st : AppState)
    (req : Request) (f : UploadedFile)
    (hf : req.file = some f) (hn : f.filename ≠ "")
    (hext : pyEndsWith (pyLower f.filename) ".csv" = true)
    (hsave : env.saveOk = true)
    (hc : f.content = "") :
    (predictRoute env st req).1
      = errResponse 400 "Error reading CSV: No columns to parse from file" ∧
    (predictRoute env st req).1.error ≠ some "CSV file is empty" := by
  have hparse : read_csv f.content
      = Except.error "No columns to parse from file" := by
    rw [hc]
    exact rfl
  refine ⟨by simp [predictRoute, hf, hn, hext, hsave, predictBody, hparse], ?_⟩
  simp [predictRoute, hf, hn, hext, hsave, predictBody, hparse, errResponse]

/-- Witness for C10 at the concrete zero-byte upload. -/
theorem empty_bytes_gives_parse_error_witness :
    (predictRoute wEnv wState wReqBad).1
      = errResponse 400 "Error reading CSV: No columns to parse from file" ∧
    (predictRoute wEnv wState wReqBad).1.error ≠ some "CSV file is empty" :=
  empty_bytes_gives_parse_error wEnv wState wReqBad wBadFile rfl (by decide)
    (by decide) rfl rfl

/-- C5: when the predictor is not ready (`is_trained` false or no model
object installed), `MLModel.predict` returns the `(None, None)` value
rather than raising, and the endpoint surfaces this as the 500
"Model prediction failed" response with `success: false`. -/
theorem unready_predictor_gives_500 (env : Env) (st : AppState)
    (req : Request) (f : UploadedFile) (df : CSVTable)
    (hready : st.ml_model.is_trained = false ∨ st.ml_model.model = none)
    (hf : req.file = some f) (hn : f.filename ≠ "")
    (hext : pyEndsWith (pyLower f.filename) ".csv" = true)
    (hsave : env.saveOk = true)
    (hparse : read_csv f.content = Except.ok df)
    (hne : dfEmpty df = false) :
    st.ml_model.predict env.rs df = none ∧
    (predictRoute env st req).1 = errResponse 500 "Model prediction failed" := by
  have hp : st.ml_model.predict env.rs df = none := by
    rcases hready with h | h <;> simp [MLModel.predict, h]
  exact ⟨hp, by
    simp [predictRoute, hf, hn, hext, hsave, predictBody, hparse, hne, hp]⟩

/-- Witness for C5: the freshly constructed (untrained) model on the
concrete 3-row upload. -/
theorem unready_predictor_gives_500_witness :
    AppState.init.ml_model.predict wEnv.rs wDf3 = none ∧
    (predictRoute wEnv AppState.init wReq3).1
      = errResponse 500 "Model prediction failed" :=
  unready_predictor_gives_500 wEnv AppState.init wReq3 wFile3 wDf3
    (Or.inl rfl) rfl (by decide) (by decide) rfl rfl rfl

/-- C2: whenever the stub predictor produces labels and confidences
(for any dataset), every confidence lies in `[0.7, 0.95]` and every
label lies in the fixed label set, given that the underlying uniform
draws lie in `[0, 1)` as `np.random.uniform` guarantees. -/
theorem stub_confidence_and_labels (m : MLModel) (rs : RandStream)
    (df : CSVTable) (ps : List String) (cs : List ℚ)
    (hu : ∀ i, 0 ≤ rs.unif i ∧ rs.unif i < 1)
    (hp : m.predict rs df = some (ps, cs)) :
    (∀ c ∈ cs, 7/10 ≤ c ∧ c ≤ 19/20) ∧ ∀ l ∈ ps, l ∈ class_labels := by
  unfold MLModel.predict at hp
  split at hp
  · exact absurd hp (by simp)
  · rw [Option.some.injEq, Prod.mk.injEq] at hp
    obtain ⟨hps, hcs⟩ := hp
    constructor
    · intro c hc
      rw [← hcs] at hc
      rcases List.mem_map.mp hc with ⟨i, _, rfl⟩
      obtain ⟨h0, h1⟩ := hu i
      constructor <;> nlinarith
    · intro l hl
      rw [← hps] at hl
      rcases List.mem_map.mp hl with ⟨i, _, rfl⟩
      exact getD_mem_of_lt _ _ _
        (Nat.mod_lt _ (by simp [class_labels]))

/-- Witness for C2: the concrete deterministic stream on the 3-row
table. -/
theorem stub_confidence_and_labels_witness :
    (∀ i, 0 ≤ wRS.unif i ∧ wRS.unif i < 1) ∧
    ((∀ c ∈ npUniform (7/10) (19/20) wRS (rowCount wDf3),
        7/10 ≤ c ∧ c ≤ 19/20) ∧
     ∀ l ∈ npChoice class_labels wRS (rowCount wDf3), l ∈ class_labels) := by
  have hu : ∀ i, 0 ≤ wRS.unif i ∧ wRS.unif i < 1 := by
    intro i
    constructor <;> norm_num [wRS]
  exact ⟨hu, stub_confidence_and_labels readyModel wRS wDf3
    (npChoice class_labels wRS (rowCount wDf3))
    (npUniform (7/10) (19/20) wRS (rowCount wDf3)) hu rfl⟩

/-- C1: a valid non-empty tabular upload with N rows gets a success
response whose predictions list has exactly N entries with ids 1..N in
input row order and whose summary reports `total_samples = N`. -/
theorem predict_returns_all_rows (env : Env) (st : AppState) (req : Request)
    (f : UploadedFile) (df : CSVTable) (r : ModelRepr)
    (hf : req.file = some f) (hn : f.filename ≠ "")
    (hext : pyEndsWith (pyLower f.filename) ".csv" = true)
    (hsave : env.saveOk = true)
    (hparse : read_csv f.content = Except.ok df)
    (hne : dfEmpty df = false)
    (htr : st.ml_model.is_trained = true)
    (hm : st.ml_model.model = some r) :
    ∃ results s,
      (predictRoute env st req).1.success = true ∧
      (predictRoute env st req).1.status = 200 ∧
      (predictRoute env st req).1.predictions = some results ∧
      (predictRoute env st req).1.summary = some s ∧
      results.length = rowCount df ∧
      (∀ i (h : i < results.length), (results.get ⟨i, h⟩).id = i + 1) ∧
      s.total_samples = rowCount df := by
  have hp : st.ml_model.predict env.rs df
      = some (npChoice class_labels env.rs (rowCount df),
              npUniform (7/10) (19/20) env.rs (rowCount df)) := by
    simp [MLModel.predict, htr, hm]
  refine ⟨format_predictions df (npChoice class_labels env.rs (rowCount df))
      (npUniform (7/10) (19/20) env.rs (rowCount df)),
    { total_samples := rowCount df,
      model_used := st.model_metadata.model_type,
      accuracy := st.model_metadata.accuracy },
    ?_, ?_, ?_, ?_, ?_, fun i h => format_predictions_id df _ _ i h, rfl⟩ <;>
    simp [predictRoute, hf, hn, hext, hsave, predictBody, hparse, hne, hp,
      format_predictions_length, npChoice_length, npUniform_length]

/-- Witness for C1: the concrete 3-row, 2-column upload against the
ready mock model. -/
theorem predict_returns_all_rows_witness :
    ∃ results s,
      (predictRoute wEnv wState wReq3).1.success = true ∧
      (predictRoute wEnv wState wReq3).1.status = 200 ∧
      (predictRoute wEnv wState wReq3).1.predictions = some results ∧
      (predictRoute wEnv wState wReq3).1.summary = some s ∧
      results.length = rowCount wDf3 ∧
      (∀ i (h : i < results.length), (results.get ⟨i, h⟩).id = i + 1) ∧
      s.total_samples = rowCount wDf3 :=
  predict_returns_all_rows wEnv wState wReq3 wFile3 wDf3
    ModelRepr.randomForestMock rfl (by decide) (by decide) rfl rfl rfl rfl rfl

/-- Counterexample to C7 as stated: on a concrete, otherwise perfectly
valid 3-row upload, a failure of the persistence step (`file.save`
raising) makes the endpoint answer the 500 "Server error" response
instead of proceeding — the identical request with persistence
succeeding is answered with success. The persistence failure therefore
does block the request, because `file.save` sits inside the
endpoint-level try/except, not a best-effort one of its own. -/
theorem save_failure_blocks_request :
    (predictRoute wEnvFail wState wReq3).1
      = errResponse 500 "Server error: disk full" ∧
    (predictRoute wEnv wState wReq3).1.success = true := by
  constructor
  · decide
  · decide

/-- C7 amended: for every upload passing the presence, filename and
extension checks, when the save succeeds the raw upload is persisted to
the timestamped location before parsing, whatever the later parse
outcome; when the save fails, the exception is caught by the
endpoint-level handler and the request is aborted with the 500
"Server error" response (it does not proceed to parsing). -/
theorem upload_persisted_before_parse (env : Env) (st : AppState)
    (req : Request) (f : UploadedFile)
    (hf : req.file = some f) (hn : f.filename ≠ "")
    (hext : pyEndsWith (pyLower f.filename) ".csv" = true) :
    (env.saveOk = true →
      ((predictRoute env st req).2).uploads
        = st.uploads ++ [(uploadPath env, f.content)]) ∧
    (env.saveOk = false →
      (predictRoute env st req).1
        = errResponse 500 ("Server error: " ++ env.saveErr)) := by
  constructor <;> intro hs <;> simp [predictRoute, hf, hn, hext, hs]

/-- Witness for the amended C7: the zero-byte upload (whose parse
fails) is still persisted when the save succeeds. -/
theorem upload_persisted_before_parse_witness :
    (wEnv.saveOk = true →
      ((predictRoute wEnv wState wReqBad).2).uploads
        = wState.uploads ++ [(uploadPath wEnv, wBadFile.content)]) ∧
    (wEnv.saveOk = false →
      (predictRoute wEnv wState wReqBad).1
        = errResponse 500 ("Server error: " ++ wEnv.saveErr)) :=
  upload_persisted_before_parse wEnv wState wReqBad wBadFile rfl
    (by decide) (by decide)

/-- Counterexample to C8 as stated: with a persisted artifact present,
startup does not instantiate the predictor from the artifact — the
installed model object is the built-in mock, independent of the
artifact bytes, because `load_model` ignores its path argument. -/
theorem startup_ignores_artifact :
    ¬ instantiatedFromArtifact cFS
        (init_app AppState.init cFS "2024-06-01T00:00:00" true true).1 := by
  intro h
  rcases h with ⟨c, hc, hm⟩
  have hmock :
      (init_app AppState.init cFS "2024-06-01T00:00:00" true true).1.ml_model.model
      = some ModelRepr.randomForestMock := rfl
  rw [hmock] at hm
  simp at hm

/-- C8 amended: at process start with `model.pkl` present (and no
persisted metadata record), `load_model` runs on its path but installs
the built-in mock model regardless of the artifact content; the
Metadata Store is updated with status "Model loaded successfully" and
the artifact modification timestamp when the load succeeds, or with
status "Error loading model" (model state unchanged) when it fails. -/
theorem startup_with_artifact (st : AppState) (fs : FS) (now : String)
    (loadOk saveMetaOk : Bool) (c : String)
    (hpkl : fs.model_pkl = some c) (hmeta : fs.metadata_json = none) :
    (loadOk = true →
      (init_app st fs now loadOk saveMetaOk).1.ml_model.model
          = some ModelRepr.randomForestMock ∧
      (init_app st fs now loadOk saveMetaOk).1.model_metadata.status
          = "Model loaded successfully" ∧
      (init_app st fs now loadOk saveMetaOk).1.model_metadata.last_trained
          = some fs.model_pkl_mtime) ∧
    (loadOk = false →
      (init_app st fs now loadOk saveMetaOk).1.ml_model = st.ml_model ∧
      (init_app st fs now loadOk saveMetaOk).1.model_metadata.status
          = "Error loading model") := by
  constructor <;> intro hl <;> subst hl <;>
    simp [init_app, hpkl, hmeta, MLModel.load_model,
      MLModel.create_mock_model, load_model_metadata]

/-- Witness for the amended C8: a fresh process finding the concrete
artifact, with the load succeeding. -/
theorem startup_with_artifact_witness :
    (true = true →
      (init_app AppState.init cFS "2024-06-01T00:00:00" true true).1.ml_model.model
          = some ModelRepr.randomForestMock ∧
      (init_app AppState.init cFS "2024-06-01T00:00:00" true true).1.model_metadata.status
          = "Model loaded successfully" ∧
      (init_app AppState.init cFS "2024-06-01T00:00:00" true true).1.model_metadata.last_trained
          = some cFS.model_pkl_mtime) ∧
    (true = false →
      (init_app AppState.init cFS "2024-06-01T00:00:00" true true).1.ml_model
          = AppState.init.ml_model ∧
      (init_app AppState.init cFS "2024-06-01T00:00:00" true true).1.model_metadata.status
          = "Error loading model") :=
  startup_with_artifact AppState.init cFS "2024-06-01T00:00:00" true true
    "serialized real model bytes" rfl rfl

end MLApp
